import Mathlib

/-!
Shallow embedding of `src/main.rs` of the `server-status` repository.

The program is a single HTTP handler (`status`) plus four probe helpers
(`get_ping_ms`, `get_speedtest`, `get_network_interfaces`, `get_all_temps`,
`parse_temp_line`).  Each probe invokes an external command and parses its
stdout; here the command invocation is abstracted into an `Option String`
argument (`none` = the invocation failed, `some s` = it produced stdout `s`),
and the pure parsing logic is translated line by line from the Rust source.

String primitives from the Rust standard library (`lines`, `split`,
`split_whitespace`, `contains`, `starts_with`, `trim`, `to_lowercase`,
`trim_matches`) are re-implemented below by structural recursion on
`List Char`, mirroring their documented semantics, so that every definition
evaluates inside the Lean kernel.  `to_lowercase` and whitespace tests are
modelled on ASCII (the tool outputs parsed by this program are ASCII apart
from the degree sign, which both implementations leave unchanged).

Numeric conventions: Rust's `f32`/`f64` values that the program only ever
produces by parsing decimal text are modelled as `ℚ` (rounding of decimal
literals to binary floats is abstracted away; none of the verified properties
depend on it).  The one place the program can produce a non-finite float —
`memory_percentage` when `total_memory = 0` — is modelled explicitly by the
`F32` type below.
-/

/-! ### Rust string primitives, structurally on `List Char` -/

def isWs (c : Char) : Bool := c.isWhitespace

def charLower (c : Char) : Char :=
  if 65 ≤ c.toNat && c.toNat ≤ 90 then Char.ofNat (c.toNat + 32) else c

/-- Rust `str::to_lowercase` (ASCII fragment). -/
def lowerStr (s : String) : String := String.mk (s.data.map charLower)

/-- Rust `str::trim`: drop whitespace from both ends. -/
def trimL (cs : List Char) : List Char :=
  ((cs.dropWhile isWs).reverse.dropWhile isWs).reverse

def strTrim (s : String) : String := String.mk (trimL s.data)

/-- Rust `str::starts_with` for a string pattern. -/
def strStartsWith (s pat : String) : Bool := pat.data.isPrefixOf s.data

def containsAux (pat : List Char) : List Char → Bool
  | [] => pat.isPrefixOf []
  | c :: rest => pat.isPrefixOf (c :: rest) || containsAux pat rest

/-- Rust `str::contains` for a string pattern: substring containment. -/
def strContainsSub (s pat : String) : Bool :=
  containsAux pat.data s.data

/-- Rust `str::contains` for a single-char pattern. -/
def strContainsChar (s : String) (c : Char) : Bool := s.data.contains c

def consHead (c : Char) : List (List Char) → List (List Char)
  | [] => [[c]]
  | g :: gs => (c :: g) :: gs

/-- Rust `str::split` with a char-predicate separator (keeps empty pieces). -/
def splitPred (p : Char → Bool) : List Char → List (List Char)
  | [] => [[]]
  | c :: cs => if p c then [] :: splitPred p cs else consHead c (splitPred p cs)

/-- Rust `str::split` with a single-char separator (keeps empty pieces). -/
def splitChar (sep : Char) (cs : List Char) : List (List Char) :=
  splitPred (fun c => c = sep) cs

/-- Rust `str::split` with a string pattern, fuelled to stay structural:
the fuel is always at least the number of remaining characters plus one, so
the exhaustion branch is unreachable for the initial call in `splitOnStr`. -/
def splitOnGo (pat : List Char) : ℕ → List Char → List Char → List (List Char)
  | 0, s, acc => [acc.reverse ++ s]
  | _ + 1, [], acc => [acc.reverse]
  | fuel + 1, c :: cs, acc =>
    if pat.isPrefixOf (c :: cs) then
      acc.reverse :: splitOnGo pat fuel (List.drop (pat.length - 1) cs) []
    else splitOnGo pat fuel cs (c :: acc)

def splitOnStr (s pat : String) : List (List Char) :=
  if pat.data = [] then [s.data]
  else splitOnGo pat.data (s.data.length + 1) s.data []

/-- Rust `str::lines` on one line: strip one trailing `'\r'`. -/
def stripCRL (cs : List Char) : List Char :=
  match cs.reverse with
  | '\r' :: rest => rest.reverse
  | _ => cs

/-- Rust `str::lines`: split on `'\n'`, no trailing empty line for a trailing
newline, and a trailing `'\r'` stripped from each line. -/
def rustLines (s : String) : List String :=
  match s.data with
  | [] => []
  | cs =>
    let ps := splitChar '\n' cs
    ((if ps.getLast? = some [] then ps.dropLast else ps).map stripCRL).map String.mk

/-- Rust `str::split_whitespace`: split on whitespace, dropping empty pieces. -/
def splitWs (s : String) : List String :=
  ((splitPred isWs s.data).filter (fun w => ¬ w = [])).map String.mk

def isDig (c : Char) : Bool := '0' ≤ c && c ≤ '9'

def digitsVal (cs : List Char) : ℕ :=
  cs.foldl (fun a c => 10 * a + (c.toNat - 48)) 0

/-- `Modelled from the spec:` the standard library float parser
(`str::parse::<f64>` / `::<f32>`), which is not part of this repository's
source.  Modelled on plain decimal literals — optional sign, digits, optional
fractional part (`"13.4"`, `"+45.0"`, `".5"`, `"3."`) — exactly the shapes the
parsed tool outputs use; every other string is rejected.  Exponent and
`inf`/`nan` forms, which no verified property touches, are rejected rather
than parsed. -/
def parseUnsignedDec (cs : List Char) : Option ℚ :=
  let intPart := cs.takeWhile isDig
  let rest := cs.drop intPart.length
  match rest with
  | [] => if intPart = [] then none else some (mkRat (digitsVal intPart) 1)
  | '.' :: frac =>
      if intPart = [] && frac = [] then none
      else if frac.all isDig then
        some (mkRat (digitsVal intPart * 10 ^ frac.length + digitsVal frac) (10 ^ frac.length))
      else none
  | _ => none

/-- `Modelled from the spec:` `str::parse::<f64>` (see `parseUnsignedDec`). -/
def parseF64 (s : String) : Option ℚ :=
  match s.data with
  | '+' :: cs => parseUnsignedDec cs
  | '-' :: cs => (parseUnsignedDec cs).map (fun q => -q)
  | cs => parseUnsignedDec cs

/-! ### Latency probe: `get_ping_ms` (main.rs 56–70) -/

/-- The parse step of `get_ping_ms` on the found line:
`line.split("time=").nth(1)?.split(' ').next()?.parse::<f64>().ok()`. -/
def extractPing (line : String) : Option ℚ :=
  match (splitOnStr line "time=").get? 1 with
  | none => none
  | some after => parseF64 (String.mk ((splitChar ' ' after).headD []))

/-- `get_ping_ms` (main.rs 56–70): the `ping` invocation is abstracted into
the `Option String` stdout argument (`none` = `Command::output()` failed). -/
def get_ping_ms (pingOut : Option String) : Option ℚ :=
  match pingOut with
  | none => none
  | some s =>
    match (rustLines s).find? (fun l => strContainsSub l "time=") with
    | none => none
    | some line => extractPing line

/-! ### Throughput probe: `get_speedtest` (main.rs 72–94) -/

/-- `line.split_whitespace().nth(1)`. -/
def secondTok (line : String) : Option String := (splitWs line).get? 1

/-- The scanning loop of `get_speedtest`.  A `Download:`/`Upload:` line with
no second whitespace token makes the whole function return `none` (the Rust
`?` operator); a second token that fails to parse assigns `none` to that
variable and scanning continues. -/
def speedScan : List String → Option ℚ → Option ℚ → Option (Option ℚ × Option ℚ)
  | [], d, u => some (d, u)
  | l :: ls, d, u =>
    if strStartsWith l "Download:" then
      match secondTok l with
      | none => none
      | some t => speedScan ls (parseF64 t) u
    else if strStartsWith l "Upload:" then
      match secondTok l with
      | none => none
      | some t => speedScan ls d (parseF64 t)
    else speedScan ls d u

/-- `get_speedtest` (main.rs 72–94): the `speedtest-cli --simple` invocation
is abstracted into the `Option String` stdout argument. -/
def get_speedtest (speedOut : Option String) : Option (ℚ × ℚ) :=
  match speedOut with
  | none => none
  | some s =>
    match speedScan (rustLines s) none none with
    | some (some d, some u) => some (d, u)
    | _ => none

/-- The handler's destructuring of `get_speedtest` into the two response
fields (main.rs 195–198). -/
def speedFields (speedOut : Option String) : Option ℚ × Option ℚ :=
  match get_speedtest speedOut with
  | some (d, u) => (some d, some u)
  | none => (none, none)

/-! ### Thermal probe: `get_all_temps` (main.rs 106–138), `parse_temp_line` (140–148) -/

/-- `TempData` (main.rs 9–14). -/
structure TempData where
  motherboard_temp : Option ℚ
  cpu_temp : Option ℚ
  gpu_temp : Option ℚ
deriving DecidableEq

/-- Rust `char` set `['+', '°', 'C']` used by `parse_temp_line`. -/
def tempTrimChar (c : Char) : Bool := c = '+' || c = '°' || c = 'C'

/-- Rust `str::trim_matches`: strip matching chars from both ends. -/
def trimMatches (p : Char → Bool) (s : String) : String :=
  String.mk (((s.data.dropWhile p).reverse.dropWhile p).reverse)

/-- `parse_temp_line` (main.rs 140–148): the first whitespace-separated word
containing `"°C"` is stripped of `'+'`, `'°'`, `'C'` at both ends and parsed;
no such word means `None`. -/
def parse_temp_line (line : String) : Option ℚ :=
  match (splitWs line).find? (fun w => strContainsSub w "°C") with
  | some w => parseF64 (trimMatches tempTrimChar w)
  | none => none

/-- The chip-header test of the loop in `get_all_temps` (main.rs 116):
`!line.starts_with(' ') && !line.is_empty() && !line.contains(':')`. -/
def isChipHeader (line : String) : Bool :=
  !strStartsWith line " " && !(line = "") && !strContainsChar line ':'

/-- Loop state of `get_all_temps`: the current chip and the three readings. -/
structure TempScan where
  chip : Option String
  mb : Option ℚ
  cpu : Option ℚ
  gpu : Option ℚ
deriving DecidableEq

/-- First half of the loop body of `get_all_temps` (main.rs 116–118): a
non-empty line with no leading space and no colon becomes the current chip. -/
def updateChip (st : TempScan) (line : String) : TempScan :=
  if isChipHeader line then { st with chip := some line } else st

/-- Second half of the loop body of `get_all_temps` (main.rs 120–130): the
`if let Some(chip) = &current_chip` block matching the line against the three
chip/label combinations. -/
def matchTemps (st : TempScan) (line : String) : TempScan :=
  match st.chip with
  | none => st
  | some chip =>
    if (strContainsSub (lowerStr chip) "asus" || strContainsSub (lowerStr chip) "acpitz")
        && strContainsSub (lowerStr (strTrim line)) "temp1:" then
      { st with mb := parse_temp_line line }
    else if strContainsSub (lowerStr chip) "k10temp"
        && strContainsSub (lowerStr (strTrim line)) "temp1:" then
      { st with cpu := parse_temp_line line }
    else if strContainsSub (lowerStr chip) "amdgpu"
        && strContainsSub (lowerStr (strTrim line)) "edge:" then
      { st with gpu := parse_temp_line line }
    else st

/-- One iteration of the `for line in stdout.lines()` loop of `get_all_temps`
(main.rs 115–131). -/
def tempStep (st : TempScan) (line : String) : TempScan :=
  matchTemps (updateChip st line) line

def tempScanInit : TempScan := ⟨none, none, none, none⟩

/-- `get_all_temps` (main.rs 106–138): the `sensors` invocation is abstracted
into the `Option String` stdout argument; a failed invocation becomes the
empty string (`unwrap_or_default`, main.rs 108). -/
def get_all_temps (sensorsOut : Option String) : TempData :=
  let stdout := sensorsOut.getD ""
  let st := (rustLines stdout).foldl tempStep tempScanInit
  ⟨st.mb, st.cpu, st.gpu⟩

/-! ### Network identity probe: `get_network_interfaces` (main.rs 96–104) -/

/-- `NetworkInterface` (main.rs 32–36). -/
structure NetworkInterface where
  name : String
  ip : String
deriving DecidableEq

/-- `get_network_interfaces` (main.rs 96–104): the `get_if_addrs()` result is
abstracted into the list argument (an enumeration failure is the empty list,
`unwrap_or_default`). -/
def get_network_interfaces (ifaces : List (String × String)) : List NetworkInterface :=
  ifaces.map (fun p => ⟨p.1, p.2⟩)

/-! ### The handler `status` (main.rs 162–234) -/

/-- An `f32` as far as this program can observe it: a finite value (rounding
abstracted to `ℚ`), or the IEEE non-finite results NaN and +∞ that
`(used as f32 / total as f32) * 100.0` produces when `total = 0`. -/
inductive F32 where
  | finite : ℚ → F32
  | nan : F32
  | inf : F32
deriving DecidableEq

/-- `memory_percentage` (main.rs 185): `(used as f32 / total as f32) * 100.0`.
IEEE division: `0/0` is NaN and `x/0` is +∞ for `x > 0`; multiplying by 100
preserves both. -/
def memPctF32 (used total : ℕ) : F32 :=
  if total = 0 then (if used = 0 then F32.nan else F32.inf)
  else F32.finite ((used : ℚ) / (total : ℚ) * 100)

/-- `ServerData` (main.rs 16–21). -/
structure ServerData where
  server_name : Option String
  server_cpu : String
  server_os : Option String
deriving DecidableEq

/-- `UsageData` (main.rs 23–30). -/
structure UsageData where
  cpu_percentage : ℚ
  memory : ℚ
  total_memory : ℚ
  memory_percentage : F32
  temps : TempData
deriving DecidableEq

/-- `NetworkData` (main.rs 38–45). -/
structure NetworkData where
  public_ip : String
  ping_ms : Option ℚ
  speed_download_mbps : Option ℚ
  speed_upload_mbps : Option ℚ
  interfaces : List NetworkInterface
deriving DecidableEq

/-- `StatusResponse` (main.rs 47–54). -/
structure StatusResponse where
  server_status : String
  server_uptime : String
  server_data : ServerData
  data : UsageData
  network : NetworkData
deriving DecidableEq

/-- The environment of one request: everything the handler reads from the
host (sysinfo queries) and from external commands/services (each
`Option String` is `none` when that invocation fails). -/
structure World where
  uptime : ℕ
  cpuBrand : Option String
  cpuUsage : ℚ
  totalMemory : ℕ
  usedMemory : ℕ
  hostName : Option String
  osName : Option String
  publicIpResp : Option String
  pingOut : Option String
  speedOut : Option String
  sensorsOut : Option String
  ifaces : List (String × String)

/-- `server_uptime` formatting (main.rs 173–178):
`format!("{}h {}m {}s", u / 3600, (u % 3600) / 60, u % 60)`. -/
def formatUptime (u : ℕ) : String :=
  toString (u / 3600) ++ "h " ++ toString ((u % 3600) / 60) ++ "m " ++ toString (u % 60) ++ "s"

/-- The `StatusResponse` the handler builds on the authorized path
(main.rs 169–226). -/
def buildResponse (w : World) : StatusResponse where
  server_status := "online"
  server_uptime := formatUptime w.uptime
  server_data :=
    { server_name := w.hostName
      server_cpu := w.cpuBrand.getD ""
      server_os := w.osName }
  data :=
    { cpu_percentage := w.cpuUsage
      memory := (w.usedMemory : ℚ) / (1024 * 1024 * 1024)
      total_memory := (w.totalMemory : ℚ) / (1024 * 1024 * 1024)
      memory_percentage := memPctF32 w.usedMemory w.totalMemory
      temps := get_all_temps w.sensorsOut }
  network :=
    { public_ip := w.publicIpResp.getD "Unavailable"
      ping_ms := get_ping_ms w.pingOut
      speed_download_mbps := (speedFields w.speedOut).1
      speed_upload_mbps := (speedFields w.speedOut).2
      interfaces := get_network_interfaces w.ifaces }

/-- JSON values, as far as this program's responses need them. -/
inductive Jsonv where
  | null : Jsonv
  | str : String → Jsonv
  | num : ℚ → Jsonv
  | arr : List Jsonv → Jsonv
  | obj : List (String × Jsonv) → Jsonv

/-- serde_json: `Option` fields serialize to `null`/the value. -/
def jOptNum : Option ℚ → Jsonv
  | none => Jsonv.null
  | some q => Jsonv.num q

def jOptStr : Option String → Jsonv
  | none => Jsonv.null
  | some s => Jsonv.str s

/-- serde_json renders the non-finite floats NaN and ±∞ as `null`. -/
def jF32 : F32 → Jsonv
  | F32.finite q => Jsonv.num q
  | F32.nan => Jsonv.null
  | F32.inf => Jsonv.null

def serializeTemps (t : TempData) : Jsonv :=
  Jsonv.obj
    [("motherboard_temp", jOptNum t.motherboard_temp),
     ("cpu_temp", jOptNum t.cpu_temp),
     ("gpu_temp", jOptNum t.gpu_temp)]

def serializeServerData (d : ServerData) : Jsonv :=
  Jsonv.obj
    [("server_name", jOptStr d.server_name),
     ("server_cpu", Jsonv.str d.server_cpu),
     ("server_os", jOptStr d.server_os)]

def serializeUsage (d : UsageData) : Jsonv :=
  Jsonv.obj
    [("cpu_percentage", Jsonv.num d.cpu_percentage),
     ("memory", Jsonv.num d.memory),
     ("total_memory", Jsonv.num d.total_memory),
     ("memory_percentage", jF32 d.memory_percentage),
     ("temps", serializeTemps d.temps)]

def serializeIface (i : NetworkInterface) : Jsonv :=
  Jsonv.obj [("name", Jsonv.str i.name), ("ip", Jsonv.str i.ip)]

def serializeNetwork (n : NetworkData) : Jsonv :=
  Jsonv.obj
    [("public_ip", Jsonv.str n.public_ip),
     ("ping_ms", jOptNum n.ping_ms),
     ("speed_download_mbps", jOptNum n.speed_download_mbps),
     ("speed_upload_mbps", jOptNum n.speed_upload_mbps),
     ("interfaces", Jsonv.arr (n.interfaces.map serializeIface))]

def serializeResponse (r : StatusResponse) : Jsonv :=
  Jsonv.obj
    [("server_status", Jsonv.str r.server_status),
     ("server_uptime", Jsonv.str r.server_uptime),
     ("server_data", serializeServerData r.server_data),
     ("data", serializeUsage r.data),
     ("network", serializeNetwork r.network)]

inductive RespBody where
  | text : String → RespBody
  | json : Jsonv → RespBody

structure HttpResp where
  code : ℕ
  body : RespBody

/-- The handler `status` (main.rs 162–234).  The `Authorization` header is
`none` when absent, `some none` when present but not convertible to a string
(`to_str()` fails), and `some (some a)` for the header string `a`.  The Rust
`format!("Bearer {}", token)` is `"Bearer " ++ token`. -/
def status (auth : Option (Option String)) (token : String) (w : World) : HttpResp :=
  match auth with
  | some (some a) =>
    if a = "Bearer " ++ token then
      ⟨200, RespBody.json (serializeResponse (buildResponse w))⟩
    else ⟨401, RespBody.text "Unauthorized"⟩
  | _ => ⟨401, RespBody.text "Unauthorized"⟩

/-- Top-level key list of a JSON object. -/
def topKeys : Jsonv → List String
  | Jsonv.obj l => l.map Prod.fst
  | _ => []

def bodyKeys (r : HttpResp) : List String :=
  match r.body with
  | RespBody.json j => topKeys j
  | RespBody.text _ => []

def lookupKey (j : Jsonv) (k : String) : Option Jsonv :=
  match j with
  | Jsonv.obj l => (l.find? (fun p => p.1 == k)).map Prod.snd
  | _ => none

/-- A request environment in which every external tool, the public-IP
service, and every sysinfo lookup fails or is empty. -/
def failWorld : World :=
  ⟨0, none, 0, 0, 0, none, none, none, none, none, none, []⟩

/-! ### Helper lemmas about the thermal scan -/

theorem updateChip_of_header (st : TempScan) (line : String)
    (h : isChipHeader line = true) :
    updateChip st line = { st with chip := some line } := by
  unfold updateChip; simp [h]

theorem updateChip_of_not_header (st : TempScan) (line : String)
    (h : isChipHeader line = false) : updateChip st line = st := by
  unfold updateChip; simp [h]

theorem matchTemps_chip (st : TempScan) (line : String) :
    (matchTemps st line).chip = st.chip := by
  unfold matchTemps
  split
  · rfl
  · split
    · rfl
    · split
      · rfl
      · split <;> rfl

theorem matchTemps_cpu_cases (st : TempScan) (line : String) :
    (matchTemps st line).cpu = st.cpu ∨
    strContainsSub (lowerStr (strTrim line)) "temp1:" = true := by
  unfold matchTemps
  cases hc : st.chip with
  | none => left; rfl
  | some chip =>
    by_cases h1 : ((strContainsSub (lowerStr chip) "asus"
        || strContainsSub (lowerStr chip) "acpitz")
        && strContainsSub (lowerStr (strTrim line)) "temp1:") = true
    · left; simp [h1]
    · by_cases h2 : (strContainsSub (lowerStr chip) "k10temp"
          && strContainsSub (lowerStr (strTrim line)) "temp1:") = true
      · right; exact ((Bool.and_eq_true _ _).mp h2).2
      · by_cases h3 : (strContainsSub (lowerStr chip) "amdgpu"
            && strContainsSub (lowerStr (strTrim line)) "edge:") = true
        · left; simp [h1, h2, h3]
        · left; simp [h1, h2, h3]

theorem tempStep_header (st : TempScan) (line : String)
    (h : isChipHeader line = true) : (tempStep st line).chip = some line := by
  unfold tempStep
  rw [matchTemps_chip, updateChip_of_header _ _ h]

theorem tempStep_k10temp_sets_cpu (st : TempScan) (chip line : String)
    (hc : st.chip = some chip) (hh : isChipHeader line = false)
    (h1 : strContainsSub (lowerStr chip) "asus" = false)
    (h2 : strContainsSub (lowerStr chip) "acpitz" = false)
    (h3 : strContainsSub (lowerStr chip) "k10temp" = true)
    (h4 : strContainsSub (lowerStr (strTrim line)) "temp1:" = true) :
    (tempStep st line).cpu = parse_temp_line line := by
  unfold tempStep
  rw [updateChip_of_not_header _ _ hh]
  unfold matchTemps
  simp only [hc, h1, h2, h3, h4, Bool.or_self, Bool.false_or, Bool.false_and,
    Bool.and_self, Bool.true_and, Bool.and_true, if_true, if_false,
    Bool.false_eq_true, ite_false, ite_true]

theorem tempStep_no_chip (line : String) (h : isChipHeader line = false) :
    tempStep tempScanInit line = tempScanInit := by
  unfold tempStep
  rw [updateChip_of_not_header _ _ h]
  rfl

theorem foldl_tempStep_no_header (ls : List String)
    (h : ∀ l ∈ ls, isChipHeader l = false) :
    ls.foldl tempStep tempScanInit = tempScanInit := by
  induction ls with
  | nil => rfl
  | cons l ls ih =>
    rw [List.foldl_cons, tempStep_no_chip l (h l (List.mem_cons_self l ls))]
    exact ih (fun x hx => h x (List.mem_cons_of_mem _ hx))

theorem tempStep_cpu_cases (st : TempScan) (line : String) :
    (tempStep st line).cpu = st.cpu ∨
    strContainsSub (lowerStr (strTrim line)) "temp1:" = true := by
  unfold tempStep
  rcases matchTemps_cpu_cases (updateChip st line) line with h | h
  · left
    rw [h]
    unfold updateChip
    split <;> rfl
  · right; exact h

theorem foldl_tempStep_cpu_invariant (ls : List String) :
    ∀ st : TempScan, (ls.foldl tempStep st).cpu = st.cpu ∨
      ∃ l ∈ ls, strContainsSub (lowerStr (strTrim l)) "temp1:" = true := by
  induction ls with
  | nil => intro st; left; rfl
  | cons l ls ih =>
    intro st
    rw [List.foldl_cons]
    rcases ih (tempStep st l) with h | ⟨x, hx, hp⟩
    · rcases tempStep_cpu_cases st l with h0 | hp
      · left; rw [h, h0]
      · right; exact ⟨l, List.mem_cons_self l ls, hp⟩
    · right; exact ⟨x, List.mem_cons_of_mem _ hx, hp⟩

/-! ### Helper lemmas about the throughput scan -/

theorem speedScan_malformed_none (ls : List String) :
    ∀ d u : Option ℚ,
    (∃ l ∈ ls, (strStartsWith l "Download:" = true ∨ strStartsWith l "Upload:" = true)
      ∧ secondTok l = none) →
    speedScan ls d u = none := by
  induction ls with
  | nil => rintro d u ⟨x, hx, _⟩; exact absurd hx (List.not_mem_nil x)
  | cons l ls ih =>
    rintro d u ⟨x, hx, hstart, hsec⟩
    rcases List.mem_cons.mp hx with rfl | hx'
    · by_cases hd : strStartsWith x "Download:" = true
      · simp [speedScan, hd, hsec]
      · have hu : strStartsWith x "Upload:" = true := hstart.resolve_left hd
        simp [speedScan, hd, hu, hsec]
    · by_cases hd : strStartsWith l "Download:" = true
      · cases hsl : secondTok l with
        | none => simp [speedScan, hd, hsl]
        | some t =>
          simp only [speedScan, hd, hsl, if_true]
          exact ih _ _ ⟨x, hx', hstart, hsec⟩
      · by_cases hu : strStartsWith l "Upload:" = true
        · cases hsl : secondTok l with
          | none => simp [speedScan, hd, hu, hsl]
          | some t =>
            simp only [speedScan, hd, hu, hsl, Bool.false_eq_true, if_false, if_true]
            exact ih _ _ ⟨x, hx', hstart, hsec⟩
        · simp only [speedScan, hd, hu, Bool.false_eq_true, if_false]
          exact ih _ _ ⟨x, hx', hstart, hsec⟩

theorem speedScan_download_parsefail (l : String) (ls : List String)
    (d u : Option ℚ) (t : String)
    (hd : strStartsWith l "Download:" = true) (ht : secondTok l = some t)
    (hp : parseF64 t = none) :
    speedScan (l :: ls) d u = speedScan ls none u := by
  simp [speedScan, hd, ht, hp]

/-! ### Claim theorems -/

/-- C1: any request whose `Authorization` header is missing, not a valid
header string, or not exactly `"Bearer " ++ token` gets HTTP 401 with body
`"Unauthorized"`, whatever the probe/system state `w` is. -/
theorem status_401_without_correct_bearer
    (auth : Option (Option String)) (token : String) (w : World)
    (h : auth ≠ some (some ("Bearer " ++ token))) :
    status auth token w = ⟨401, RespBody.text "Unauthorized"⟩ := by
  rcases auth with _ | a
  · rfl
  · rcases a with _ | a
    · rfl
    · have ha : a ≠ "Bearer " ++ token := fun e => h (by rw [e])
      simp [status, ha]

theorem status_401_without_correct_bearer_witness :
    status none "secret" failWorld = ⟨401, RespBody.text "Unauthorized"⟩ :=
  status_401_without_correct_bearer none "secret" failWorld (by decide)

/-- C2: a correctly authorized request always gets HTTP 200 whose JSON body
has exactly the five top-level keys, for every probe/system state `w` —
including the state in which every external tool and service fails. -/
theorem status_200_all_top_keys (token : String) (w : World) :
    (status (some (some ("Bearer " ++ token))) token w).code = 200 ∧
    bodyKeys (status (some (some ("Bearer " ++ token))) token w) =
      ["server_status", "server_uptime", "server_data", "data", "network"] ∧
    (status (some (some ("Bearer " ++ "t"))) "t" failWorld).code = 200 ∧
    bodyKeys (status (some (some ("Bearer " ++ "t"))) "t" failWorld) =
      ["server_status", "server_uptime", "server_data", "data", "network"] := by
  refine ⟨?_, ?_, by decide, by decide⟩ <;>
    simp [status, bodyKeys, serializeResponse, topKeys]

/-- C8: the authorized response's `server_status` is `"online"` and
`server_uptime` is `"{h}h {m}m {s}s"` with `h = u / 3600`,
`m = (u % 3600) / 60`, `s = u % 60`; e.g. `u = 3725` gives `"1h 2m 5s"`. -/
theorem status_online_uptime_format (token : String) (w : World) :
    ∃ j, (status (some (some ("Bearer " ++ token))) token w).body = RespBody.json j ∧
      lookupKey j "server_status" = some (Jsonv.str "online") ∧
      lookupKey j "server_uptime" = some (Jsonv.str
        (toString (w.uptime / 3600) ++ "h " ++ toString ((w.uptime % 3600) / 60) ++ "m "
          ++ toString (w.uptime % 60) ++ "s")) ∧
      formatUptime 3725 = "1h 2m 5s" := by
  have hb : status (some (some ("Bearer " ++ token))) token w
      = ⟨200, RespBody.json (serializeResponse (buildResponse w))⟩ := by
    simp [status]
  exact ⟨serializeResponse (buildResponse w), by rw [hb], rfl, rfl, by decide⟩

/-- C7 counterexample: with `total_memory = 0` the code still divides, so the
field is the non-finite float +∞ (used = 5) or NaN (used = 0) — an undefined
numeric value, not an explicitly-absent field (the field's type is a plain
`f32`, never absent). -/
theorem memory_percentage_zero_total_counterexample :
    memPctF32 5 0 = F32.inf ∧ memPctF32 0 0 = F32.nan ∧
    (buildResponse { failWorld with usedMemory := 5 }).data.memory_percentage = F32.inf :=
  ⟨rfl, rfl, rfl⟩

/-- C7 (amended): for `total > 0` the field equals `(used/total) × 100`; for
`total = 0` the code performs the IEEE division anyway, yielding NaN when
`used = 0` and +∞ otherwise, with no explicit absent-treatment. -/
theorem memory_percentage_formula (w : World) (h : 0 < w.totalMemory) :
    (buildResponse w).data.memory_percentage
      = F32.finite ((w.usedMemory : ℚ) / (w.totalMemory : ℚ) * 100) ∧
    (∀ used : ℕ, memPctF32 used 0 = if used = 0 then F32.nan else F32.inf) := by
  constructor
  · show memPctF32 w.usedMemory w.totalMemory = _
    unfold memPctF32
    rw [if_neg (Nat.pos_iff_ne_zero.mp h)]
  · intro used
    unfold memPctF32
    simp

theorem memory_percentage_formula_witness :
    (buildResponse { failWorld with usedMemory := 1, totalMemory := 4 }).data.memory_percentage
      = F32.finite (((1 : ℕ) : ℚ) / ((4 : ℕ) : ℚ) * 100) :=
  (memory_percentage_formula { failWorld with usedMemory := 1, totalMemory := 4 } (by decide)).1

/-- C3: the two speed fields are jointly present or jointly absent, and the
output `"Download: 93.12 Mbit/s"` with no `Upload:` line yields both absent. -/
theorem speed_joint_or_neither :
    (∀ speedOut : Option String,
      ((speedFields speedOut).1.isSome) = ((speedFields speedOut).2.isSome)) ∧
    speedFields (some "Download: 93.12 Mbit/s") = (none, none) := by
  constructor
  · intro out
    unfold speedFields
    rcases h : get_speedtest out with _ | ⟨d, u⟩ <;> simp [h]
  · decide

/-- C6: `get_ping_ms` extracts the float after `"time="` up to the next space
on the first `"time="` line (13.4 for the sample ping line), and is absent on
invocation failure, when no line contains `"time="`, or on a parse failure. -/
theorem ping_extraction_correct :
    get_ping_ms (some "64 bytes from 8.8.8.8: icmp_seq=1 ttl=55 time=13.4 ms")
      = some (13.4 : ℚ) ∧
    get_ping_ms none = none ∧
    (∀ s : String, (∀ l ∈ rustLines s, strContainsSub l "time=" = false) →
      get_ping_ms (some s) = none) ∧
    get_ping_ms (some "a time=abc ms") = none := by
  refine ⟨?_, rfl, ?_, by decide⟩
  · rw [show (13.4 : ℚ) = mkRat 67 5 from by rw [Rat.mkRat_eq_div]; norm_num]
    decide
  · intro s h
    have hf : (rustLines s).find? (fun l => strContainsSub l "time=") = none :=
      List.find?_eq_none.mpr (fun l hl => by simp [h l hl])
    simp [get_ping_ms, hf]

theorem ping_extraction_correct_witness :
    get_ping_ms (some "hello") = none :=
  ping_extraction_correct.2.2.1 "hello" (by decide)

/-- C9: a `Download:`/`Upload:` line with no second token makes the whole
probe return absent-absent immediately, even amid well-formed lines; a second
token that fails to parse merely unsets that side and scanning continues,
later matches overwriting earlier ones. -/
theorem speed_malformed_early_return_and_overwrite :
    (∀ s : String,
      (∃ l ∈ rustLines s,
        (strStartsWith l "Download:" = true ∨ strStartsWith l "Upload:" = true)
        ∧ secondTok l = none) →
      get_speedtest (some s) = none) ∧
    (∀ (l : String) (ls : List String) (d u : Option ℚ) (t : String),
      strStartsWith l "Download:" = true → secondTok l = some t → parseF64 t = none →
      speedScan (l :: ls) d u = speedScan ls none u) ∧
    get_speedtest (some "Download: 93.12 Mbit/s\nUpload:\nUpload: 11.5 Mbit/s") = none ∧
    get_speedtest (some "Download: 10.0 x\nDownload: bogus x\nUpload: 3.0 x") = none ∧
    get_speedtest (some "Download: 1.0 x\nDownload: 2.0 x\nUpload: 3.0 x")
      = some (mkRat 2 1, mkRat 3 1) := by
  refine ⟨?_, speedScan_download_parsefail, by decide, by decide, by decide⟩
  intro s hex
  have hs : speedScan (rustLines s) none none = none :=
    speedScan_malformed_none _ _ _ hex
  simp [get_speedtest, hs]

theorem speed_malformed_early_return_and_overwrite_witness :
    get_speedtest (some "Download:") = none ∧
    speedScan ["Download: bogus x"] none none = speedScan [] none none :=
  ⟨speed_malformed_early_return_and_overwrite.1 "Download:"
      ⟨"Download:", by decide, Or.inl (by decide), by decide⟩,
   speed_malformed_early_return_and_overwrite.2.1 "Download: bogus x" [] none none "bogus"
      (by decide) (by decide) (by decide)⟩

/-- C4 counterexample: a chip header containing both `"asus"` and
`"k10temp"` routes a `temp1:` line to the motherboard field (the asus/acpitz
branch is checked first), so the claim as stated — k10temp chip plus `temp1:`
line implies `cpu_temp` is set — fails at this input. -/
theorem k10temp_precedence_counterexample :
    strContainsSub (lowerStr "asus k10temp") "k10temp" = true ∧
    strContainsSub (lowerStr (strTrim "temp1: +45.0°C")) "temp1:" = true ∧
    (get_all_temps (some "asus k10temp\ntemp1: +45.0°C")).cpu_temp = none ∧
    (get_all_temps (some "asus k10temp\ntemp1: +45.0°C")).motherboard_temp
      = some (45 : ℚ) := by
  decide

/-- C4 (amended): a non-empty line with no leading space and no colon starts
a new chip context; within a chip whose lowercased name contains `"k10temp"`
and contains neither `"asus"` nor `"acpitz"`, a `temp1:` line sets `cpu` to
the value of `parse_temp_line` (first `°C` token, stripped of `+`/`°`/`C`,
parsed as float); the sample `temp1:` line parses to 45.0 end to end. -/
theorem k10temp_temp1_sets_cpu :
    (∀ (st : TempScan) (line : String), isChipHeader line = true →
      (tempStep st line).chip = some line) ∧
    (∀ (st : TempScan) (chip line : String),
      st.chip = some chip → isChipHeader line = false →
      strContainsSub (lowerStr chip) "asus" = false →
      strContainsSub (lowerStr chip) "acpitz" = false →
      strContainsSub (lowerStr chip) "k10temp" = true →
      strContainsSub (lowerStr (strTrim line)) "temp1:" = true →
      (tempStep st line).cpu = parse_temp_line line) ∧
    parse_temp_line "temp1:        +45.0°C  (high = +70.0°C)" = some (45 : ℚ) ∧
    (get_all_temps
        (some "k10temp-pci-00c3\nAdapter: PCI adapter\ntemp1:        +45.0°C")).cpu_temp
      = some (45 : ℚ) :=
  ⟨tempStep_header, tempStep_k10temp_sets_cpu, by decide, by decide⟩

theorem k10temp_temp1_sets_cpu_witness :
    (tempStep tempScanInit "k10temp-pci-00c3").chip = some "k10temp-pci-00c3" ∧
    (tempStep { tempScanInit with chip := some "k10temp-pci-00c3" } "temp1: +45.0°C").cpu
      = parse_temp_line "temp1: +45.0°C" :=
  ⟨k10temp_temp1_sets_cpu.1 tempScanInit "k10temp-pci-00c3" (by decide),
   k10temp_temp1_sets_cpu.2.1 _ "k10temp-pci-00c3" "temp1: +45.0°C" rfl
     (by decide) (by decide) (by decide) (by decide) (by decide)⟩

/-- C5 counterexample: the probe has no fallback — an output with no matching
chip label but a `"package id 0"` Celsius line yields no temperature at all. -/
theorem no_fallback_counterexample :
    strContainsSub (lowerStr "Package id 0:  +50.0°C  (high = +80.0°C)") "package id 0" = true ∧
    get_all_temps (some "coretemp-isa-0000\nPackage id 0:  +50.0°C  (high = +80.0°C)")
      = ⟨none, none, none⟩ := by
  decide

/-- C5 (amended): `get_all_temps` has no structured-API or `"package id 0"`
fallback: a CPU temperature can only come from a line whose trimmed lowercase
form contains `"temp1:"`. -/
theorem cpu_temp_only_from_temp1_lines (sensorsOut : Option String)
    (h : (get_all_temps sensorsOut).cpu_temp.isSome = true) :
    ∃ l ∈ rustLines (sensorsOut.getD ""),
      strContainsSub (lowerStr (strTrim l)) "temp1:" = true := by
  rcases foldl_tempStep_cpu_invariant (rustLines (sensorsOut.getD "")) tempScanInit with h0 | hex
  · exfalso
    have he : (get_all_temps sensorsOut).cpu_temp
        = ((rustLines (sensorsOut.getD "")).foldl tempStep tempScanInit).cpu := rfl
    rw [he, h0] at h
    simp [tempScanInit] at h
  · exact hex

theorem cpu_temp_only_from_temp1_lines_witness :
    ∃ l ∈ rustLines ((some "k10temp\ntemp1: +45.0°C" : Option String).getD ""),
      strContainsSub (lowerStr (strTrim l)) "temp1:" = true :=
  cpu_temp_only_from_temp1_lines (some "k10temp\ntemp1: +45.0°C") (by decide)

/-- C10: temperature-label lines before the first chip header are ignored
(the fold stays at its initial state over a header-free prefix), and a later
matching line overwrites an earlier value — the sample input ends with
`cpu_temp = 50.0`, not 45.0, and a `temp1:` line with no chip yields none. -/
theorem temps_pre_chip_ignored_last_wins :
    (∀ ls : List String, (∀ l ∈ ls, isChipHeader l = false) →
      ls.foldl tempStep tempScanInit = tempScanInit) ∧
    (∀ (st : TempScan) (chip line : String),
      st.chip = some chip → isChipHeader line = false →
      strContainsSub (lowerStr chip) "asus" = false →
      strContainsSub (lowerStr chip) "acpitz" = false →
      strContainsSub (lowerStr chip) "k10temp" = true →
      strContainsSub (lowerStr (strTrim line)) "temp1:" = true →
      (tempStep st line).cpu = parse_temp_line line) ∧
    (get_all_temps
        (some "temp1: +40.0°C\nk10temp-pci\ntemp1: +45.0°C\ntemp1: +50.0°C")).cpu_temp
      = some (50 : ℚ) ∧
    (get_all_temps (some "temp1: +40.0°C")).cpu_temp = none :=
  ⟨foldl_tempStep_no_header, tempStep_k10temp_sets_cpu, by decide, by decide⟩

theorem temps_pre_chip_ignored_last_wins_witness :
    ["temp1: +40.0°C"].foldl tempStep tempScanInit = tempScanInit ∧
    (tempStep { tempScanInit with chip := some "k10temp-pci", cpu := some (45 : ℚ) }
        "temp1: +50.0°C").cpu = parse_temp_line "temp1: +50.0°C" :=
  ⟨temps_pre_chip_ignored_last_wins.1 _ (by decide),
   temps_pre_chip_ignored_last_wins.2.1 _ "k10temp-pci" _ rfl
     (by decide) (by decide) (by decide) (by decide) (by decide)⟩
